import Mathlib

/-!
Shallow embedding of the DME partner-selection core
(`src/dme_selector/views.py`): the catalog matcher
`partner_matches_all_products`, the state/payor eligibility filter, and the
post-generation verification of a proposed recommendation (best partner,
alternatives, split delivery) inside `select_dme_partner`.

JSON objects are modelled as structures.  Fields that the Python code reads
with `.get(key, default)` are modelled as total fields holding the default
when the key is absent; fields read with `obj[key]` (which raises `KeyError`
when absent) are modelled as `Option`, and the verifier is an
`Except`-valued function whose `.error` constructor models an escaped
exception.
-/

namespace DME

/-- A requested product of the order (`order_products` element).  All three
fields are read with `.get(_, "")`, so a missing key behaves as `""`. -/
structure RequestedProduct where
  product_name : String
  hcpcs_code : String
  protocol_step_option : String
deriving DecidableEq

/-- One entry of a partner's `product_catalog`; fields read with
`.get(_, "")`. -/
structure CatalogEntry where
  product_name : String
  hcpcs_code : String
  protocol_step_option : String
deriving DecidableEq

/-- A roster partner from `dme_partners.json`.  `partner_id` is accessed
with `p["partner_id"]` but the static roster is assumed well-formed, so it
is total; `state` is read with `.get("state")` and
`contracted_payor_status` with `.get("contracted_payor_status", False)`. -/
structure Partner where
  partner_id : String
  state : String
  contracted_payor_status : Bool
  product_catalog : List CatalogEntry
deriving DecidableEq

/-- The order, as extracted by the handler:
`order_json["practice_details"]["address"]["address_state"]` and
`order_json["details"][0]["products"]`. -/
structure Order where
  address_state : String
  products : List RequestedProduct
deriving DecidableEq

/-- A best-partner or alternative reference inside the LLM proposal.
`partner_id` is accessed with `ref["partner_id"]`, which raises when the
key is absent, hence `Option`. -/
structure PartnerRef where
  partner_id : Option String
  partner_name : String
  summary : String
deriving DecidableEq

/-- A split-delivery entry.  Only `fulfilled_products` is read, with
`.get("fulfilled_products", [])`. -/
structure SplitEntry where
  partner_id : Option String
  partner_name : String
  fulfilled_products : List String
deriving DecidableEq

/-- The parsed LLM proposal (`result_json`).  `best_partner` is `none` when
the key is absent, `null`, or an empty (falsy) object; `alternatives` and
`split_delivery` are `[]` when absent. -/
structure Proposal where
  best_partner : Option PartnerRef
  alternatives : List PartnerRef
  split_delivery : List SplitEntry
  summary : String
deriving DecidableEq

/-- Python `str.strip()` (ASCII-whitespace model): remove leading and
trailing whitespace characters. -/
def pyStrip (s : String) : String :=
  ⟨((s.data.dropWhile Char.isWhitespace).reverse.dropWhile
      Char.isWhitespace).reverse⟩

/-- Python `str.upper()` (ASCII model). -/
def pyUpper (s : String) : String := ⟨s.data.map Char.toUpper⟩

/-- Python `str.lower()` (ASCII model). -/
def pyLower (s : String) : String := ⟨s.data.map Char.toLower⟩

/-- `.strip().upper()` applied to an HCPCS code. -/
def normCode (s : String) : String := pyUpper (pyStrip s)

/-- `.strip().lower()` applied to a protocol-step-option. -/
def normOption (s : String) : String := pyLower (pyStrip s)

/-- Body of the `any(...)` in `partner_matches_all_products`: one catalog
entry `p` against one requested `product`. -/
def entry_matches (product : RequestedProduct) (p : CatalogEntry) : Bool :=
  normCode p.hcpcs_code == normCode product.hcpcs_code ||
  normOption p.protocol_step_option == normOption product.protocol_step_option

/-- `partner_matches_all_products(order_products, partner_catalog)`: every
requested product has a matching catalog entry. -/
def partner_matches_all_products (order_products : List RequestedProduct)
    (partner_catalog : List CatalogEntry) : Bool :=
  order_products.all fun product =>
    partner_catalog.any fun p => entry_matches product p

/-- The state/payor eligibility filter: keep partners whose `state` equals
the order's state and whose `contracted_payor_status` is truthy. -/
def eligible_partners (dme_partners : List Partner) (state : String) :
    List Partner :=
  dme_partners.filter fun partner =>
    partner.state == state && partner.contracted_payor_status

/-- `product_names_from_order`: the set of trimmed requested product display
names, as a list (Python builds a `set`; list membership below gives the
same subset semantics). -/
def product_names_from_order (order_products : List RequestedProduct) :
    List String :=
  order_products.map fun p => pyStrip p.product_name

/-- `product_names_from_partner`: trimmed catalog product display names. -/
def product_names_from_partner (partner : Partner) : List String :=
  partner.product_catalog.map fun p => pyStrip p.product_name

/-- Python's `set(xs).issubset(set(ys))` on our list model. -/
def subsetNames (xs ys : List String) : Bool :=
  xs.all fun x => ys.contains x

/-- `next((p for p in dme_partners if p["partner_id"] == pid), None)`. -/
def find_partner (dme_partners : List Partner) (pid : String) :
    Option Partner :=
  dme_partners.find? fun p => p.partner_id == pid

/-- The one way the verification block can raise: accessing
`ref["partner_id"]` on a reference that has no such key. -/
inductive VerifyError where
  | keyError : VerifyError
deriving DecidableEq

/-- The keep condition shared by lines 150 and 158 of `views.py`: the id
resolves to a roster partner (a non-`None`, hence truthy, dict) and the
requested names are a subset of that partner's offered names. -/
def id_covers (dme_partners : List Partner) (requested : List String)
    (pid : String) : Bool :=
  match find_partner dme_partners pid with
  | none => false
  | some partner =>
    subsetNames requested (product_names_from_partner partner)

/-- Best-partner verification (`views.py` lines 147-151): when a truthy
`best_partner` is present, read its `partner_id` (raising if absent), look
the id up in the full roster, and keep the claim only if the partner was
found and the requested names are a subset of its offered names. -/
def verify_best (dme_partners : List Partner) (requested : List String) :
    Option PartnerRef → Except VerifyError (Option PartnerRef)
  | none => .ok none
  | some ref =>
    match ref.partner_id with
    | none => .error .keyError
    | some best_id =>
      if id_covers dme_partners requested best_id then .ok (some ref)
      else .ok none

/-- Alternatives verification (`views.py` lines 153-160): keep each
alternative iff its id is found in the full roster and the requested names
are a subset of that partner's offered names; reading a missing
`partner_id` raises and discards all work. -/
def verify_alts (dme_partners : List Partner) (requested : List String) :
    List PartnerRef → Except VerifyError (List PartnerRef)
  | [] => .ok []
  | alt :: rest =>
    match alt.partner_id with
    | none => .error .keyError
    | some alt_id =>
      match verify_alts dme_partners requested rest with
      | .error e => .error e
      | .ok filtered =>
        .ok (if id_covers dme_partners requested alt_id then alt :: filtered
             else filtered)

/-- The keep condition of lines 150/158 as a predicate on the proposal
reference itself (`false` on a reference without a `partner_id`, which on
a successful run cannot occur): used to state the filtering behaviour. -/
def keep_ref (dme_partners : List Partner) (requested : List String)
    (alt : PartnerRef) : Bool :=
  match alt.partner_id with
  | none => false
  | some alt_id => id_covers dme_partners requested alt_id

/-- Split-delivery verification (`views.py` lines 163-172): only when the
list is truthy (non-empty), take the union of the claimed
`fulfilled_products`; if the requested names are not a subset of that
union, clear the plan; then, if a (verified) best partner exists, clear it
unconditionally. -/
def verify_split (requested : List String) (best : Option PartnerRef)
    (split_delivery : List SplitEntry) : List SplitEntry :=
  if split_delivery.isEmpty then split_delivery
  else
    let combined_products :=
      split_delivery.flatMap fun part => part.fulfilled_products
    let afterCover :=
      if subsetNames requested combined_products then split_delivery else []
    if best.isSome then [] else afterCover

/-- The whole post-processing block of `select_dme_partner` (lines
137-172): verify best partner, then alternatives, then split delivery,
passing the summary through unchanged.  `.error` models an exception
escaping to the handler's `except` clause (HTTP 500). -/
def verify (order : Order) (dme_partners : List Partner) (p : Proposal) :
    Except VerifyError Proposal :=
  match verify_best dme_partners (product_names_from_order order.products)
      p.best_partner with
  | .error e => .error e
  | .ok best1 =>
    match verify_alts dme_partners (product_names_from_order order.products)
        p.alternatives with
    | .error e => .error e
    | .ok alts1 =>
      .ok { best_partner := best1
            alternatives := alts1
            split_delivery :=
              verify_split (product_names_from_order order.products) best1
                p.split_delivery
            summary := p.summary }

/-- Outcome of one request through `select_dme_partner`. -/
inductive FlowResult where
  | noEligible : FlowResult
  | verifyFailed : VerifyError → FlowResult
  | ok : Proposal → FlowResult
deriving DecidableEq

/-- The handler's control flow: filter the roster; when no partner is
eligible, return the 404 "no eligible DME partners" response without
invoking the oracle; otherwise call the oracle on the eligible set and
verify its proposal against the full roster. -/
def select_dme_partner (oracle : Order → List Partner → Proposal)
    (dme_partners : List Partner) (order : Order) : FlowResult :=
  let eligible := eligible_partners dme_partners order.address_state
  if eligible.isEmpty then .noEligible
  else
    match verify order dme_partners (oracle order eligible) with
    | .error e => .verifyFailed e
    | .ok out => .ok out

/-! ### Concrete instances used by counterexamples and witnesses -/

/-- A roster partner whose single catalog entry shares the display name
`"A"` with the order below but has an unrelated HCPCS code and
protocol-step-option. -/
def partnerX : Partner := ⟨"X", "CA", true, [⟨"A", "X9999", "STEP9"⟩]⟩

/-- An order for one product named `"A"` with HCPCS code `"E0100"` and no
protocol-step-option. -/
def orderA : Order := ⟨"CA", [⟨"A", "E0100", ""⟩]⟩

/-- A proposal reference naming partner `"X"`. -/
def refX : PartnerRef := ⟨some "X", "Partner X", "chose X"⟩

/-- A proposal reference naming an id absent from every roster used here. -/
def refZ : PartnerRef := ⟨some "Z", "Partner Z", "chose Z"⟩

/-- A proposal reference whose dict has no `partner_id` key at all. -/
def refNoId : PartnerRef := ⟨none, "Partner N", "no id"⟩

/-- A split-delivery entry claiming product `"A"`. -/
def splitA : SplitEntry := ⟨some "Y", "Partner Y", ["A"]⟩

/-- A split-delivery entry claiming only product `"B"`. -/
def splitB : SplitEntry := ⟨some "Y", "Partner Y", ["B"]⟩

/-- An ineligible partner: wrong state, not payor-contracted, but its
catalog carries the display name `"A"`. -/
def partnerP : Partner := ⟨"P1", "NY", false, [⟨"A", "E9", "S9"⟩]⟩

/-- An eligible partner that only carries product `"B"`. -/
def partnerQ : Partner := ⟨"Q1", "CA", true, [⟨"B", "E8", "S8"⟩]⟩

/-- A proposal reference naming the ineligible partner `"P1"`. -/
def refP : PartnerRef := ⟨some "P1", "Partner P", "chose P"⟩

/-- A partner operating in the wrong state for `orderA`. -/
def partnerNY : Partner := ⟨"X", "NY", true, [⟨"A", "E0100", ""⟩]⟩

/-! ### Helper lemmas about the verifier -/

/-- Inversion of a successful run of `verify`: both the best-partner and
the alternatives passes succeeded and the output is assembled from their
results and the split-delivery pass. -/
theorem verify_ok_elim (order : Order) (d : List Partner) (p out : Proposal)
    (h : verify order d p = .ok out) :
    ∃ best1 alts1,
      verify_best d (product_names_from_order order.products)
          p.best_partner = .ok best1 ∧
      verify_alts d (product_names_from_order order.products)
          p.alternatives = .ok alts1 ∧
      out = { best_partner := best1
              alternatives := alts1
              split_delivery :=
                verify_split (product_names_from_order order.products) best1
                  p.split_delivery
              summary := p.summary } := by
  unfold verify at h
  cases hb : verify_best d (product_names_from_order order.products)
      p.best_partner with
  | error e => rw [hb] at h; cases h
  | ok best1 =>
    rw [hb] at h
    cases ha : verify_alts d (product_names_from_order order.products)
        p.alternatives with
    | error e => rw [ha] at h; cases h
    | ok alts1 =>
      rw [ha] at h
      cases h
      exact ⟨best1, alts1, rfl, rfl, rfl⟩

/-- A successful best-partner pass that returns a kept reference got that
reference from the proposal, and its id satisfies the keep condition. -/
theorem verify_best_ok_some (d : List Partner) (r : List String)
    (b : Option PartnerRef) (ref : PartnerRef)
    (h : verify_best d r b = .ok (some ref)) :
    b = some ref ∧ keep_ref d r ref = true := by
  cases b with
  | none => cases h
  | some ref0 =>
    simp only [verify_best] at h
    cases hid : ref0.partner_id with
    | none => simp only [hid] at h; cases h
    | some pid =>
      simp only [hid] at h
      by_cases hc : id_covers d r pid = true
      · rw [if_pos hc] at h
        cases h
        exact ⟨rfl, by simp [keep_ref, hid, hc]⟩
      · rw [if_neg hc] at h
        simp at h

/-- The best-partner pass is idempotent on its own successful output. -/
theorem verify_best_idem (d : List Partner) (r : List String)
    (b b1 : Option PartnerRef) (h : verify_best d r b = .ok b1) :
    verify_best d r b1 = .ok b1 := by
  cases b1 with
  | none => rfl
  | some ref =>
    obtain ⟨-, hk⟩ := verify_best_ok_some d r b ref h
    simp only [keep_ref] at hk
    cases hid : ref.partner_id with
    | none => simp only [hid] at hk; cases hk
    | some pid =>
      simp only [hid] at hk
      simp only [verify_best, hid]
      rw [if_pos hk]

/-- A successful alternatives pass returns exactly the proposed list
filtered by the keep condition. -/
theorem verify_alts_ok_filter (d : List Partner) (r : List String)
    (l out : List PartnerRef) (h : verify_alts d r l = .ok out) :
    out = l.filter (keep_ref d r) := by
  induction l generalizing out with
  | nil => cases h; rfl
  | cons alt rest ih =>
    simp only [verify_alts] at h
    cases hid : alt.partner_id with
    | none => simp only [hid] at h; cases h
    | some pid =>
      simp only [hid] at h
      cases hrest : verify_alts d r rest with
      | error e => simp only [hrest] at h; cases h
      | ok filtered =>
        simp only [hrest] at h
        cases h
        rw [ih filtered hrest, List.filter_cons]
        simp [keep_ref, hid]

/-- The alternatives pass succeeds and keeps everything on a list whose
members all satisfy the keep condition. -/
theorem verify_alts_all_kept (d : List Partner) (r : List String)
    (l : List PartnerRef) (h : ∀ a ∈ l, keep_ref d r a = true) :
    verify_alts d r l = .ok l := by
  induction l with
  | nil => rfl
  | cons alt rest ih =>
    have hk := h alt (List.mem_cons_self alt rest)
    have hrest := ih fun a ha => h a (List.mem_cons_of_mem alt ha)
    simp only [keep_ref] at hk
    cases hid : alt.partner_id with
    | none => simp only [hid] at hk; cases hk
    | some pid =>
      simp only [hid] at hk
      simp [verify_alts, hid, hrest, hk]

/-- The alternatives pass succeeds whenever every entry carries an id. -/
theorem verify_alts_total (d : List Partner) (r : List String)
    (l : List PartnerRef) (h : ∀ a ∈ l, a.partner_id.isSome = true) :
    ∃ out, verify_alts d r l = .ok out := by
  induction l with
  | nil => exact ⟨[], rfl⟩
  | cons alt rest ih =>
    obtain ⟨out, hout⟩ := ih fun a ha => h a (List.mem_cons_of_mem alt ha)
    have hs := h alt (List.mem_cons_self alt rest)
    cases hid : alt.partner_id with
    | none => rw [hid] at hs; cases hs
    | some pid =>
      refine ⟨if id_covers d r pid then alt :: out else out, ?_⟩
      simp [verify_alts, hid, hout]

/-- When a best partner is present, the split-delivery pass clears the
plan. -/
theorem verify_split_of_best (r : List String) (ref : PartnerRef)
    (sd : List SplitEntry) : verify_split r (some ref) sd = [] := by
  cases sd with
  | nil => rfl
  | cons x l => unfold verify_split; simp

/-- When the claimed union does not cover the requested names, the
split-delivery pass clears the plan. -/
theorem verify_split_of_not_covered (r : List String) (b : Option PartnerRef)
    (sd : List SplitEntry)
    (h : subsetNames r (sd.flatMap fun part => part.fulfilled_products)
          = false) :
    verify_split r b sd = [] := by
  cases sd with
  | nil => rfl
  | cons x l =>
    simp only [List.flatMap_cons] at h
    cases b <;> simp [verify_split, h]

/-- The split-delivery pass is idempotent for a fixed best partner. -/
theorem verify_split_idem (r : List String) (b : Option PartnerRef)
    (sd : List SplitEntry) :
    verify_split r b (verify_split r b sd) = verify_split r b sd := by
  cases sd with
  | nil => rfl
  | cons x l =>
    cases b with
    | some ref => rw [verify_split_of_best, verify_split_of_best]
    | none =>
      cases hc :
          subsetNames r ((x :: l).flatMap fun part => part.fulfilled_products)
          with
      | true =>
        have h : verify_split r none (x :: l) = x :: l := by
          simp only [List.flatMap_cons] at hc
          simp [verify_split, hc]
        rw [h]
        exact h
      | false =>
        rw [verify_split_of_not_covered r none (x :: l) hc]
        rfl

/-! ### Claims -/

/-- C1 (counterexample): the verifier keeps best partner `X` for an order
whose only product (`"A"`, HCPCS `E0100`, no option) is NOT matched by any
entry of `X`'s catalog under the HCPCS/protocol-step-option rule of
`partner_matches_all_products`; verification only compares display names,
so a verified best partner need not fulfill the order in the sense of
§4.1. -/
theorem C1_counterexample :
    verify orderA [partnerX] ⟨some refX, [], [], "s"⟩ =
        .ok ⟨some refX, [], [], "s"⟩ ∧
    refX.partner_id = some "X" ∧
    find_partner [partnerX] "X" = some partnerX ∧
    partner_matches_all_products orderA.products partnerX.product_catalog
      = false :=
  ⟨by rfl, by rfl, by rfl, by decide⟩

/-- C1 (amended): if the verified recommendation contains a best partner,
then that reference carries a partner id that resolves in the full roster
and the trimmed requested product display names are a subset of that
partner's trimmed catalog display names — name coverage, not the §4.1
HCPCS/protocol-step-option matching rule. -/
theorem C1_verified_best_covers_names (order : Order) (d : List Partner)
    (p out : Proposal) (ref : PartnerRef)
    (h : verify order d p = .ok out)
    (hb : out.best_partner = some ref) :
    keep_ref d (product_names_from_order order.products) ref = true := by
  obtain ⟨best1, alts1, hbest, halts, hout⟩ := verify_ok_elim order d p out h
  subst hout
  have hb' : best1 = some ref := hb
  rw [hb'] at hbest
  exact (verify_best_ok_some d _ p.best_partner ref hbest).2

/-- C1 (witness): the amended theorem applied to a concrete verified
output with a best partner. -/
theorem C1_witness :
    verify orderA [partnerX] ⟨some refX, [], [], "s"⟩ =
        .ok ⟨some refX, [], [], "s"⟩ ∧
    (Proposal.mk (some refX) [] [] "s").best_partner = some refX ∧
    keep_ref [partnerX] (product_names_from_order orderA.products) refX
      = true :=
  ⟨by rfl, by rfl,
    C1_verified_best_covers_names orderA [partnerX]
      ⟨some refX, [], [], "s"⟩ ⟨some refX, [], [], "s"⟩ refX (by rfl)
      (by rfl)⟩

/-- C2 (counterexample): a requested product and a catalog entry whose
HCPCS codes are both blank and whose protocol-step-options differ still
match: the matcher has no emptiness guard, so blank-equals-blank counts as
a match, contradicting the claim that it must return false. -/
theorem C2_counterexample :
    pyStrip (RequestedProduct.mk "A" "" "x").hcpcs_code = "" ∧
    pyStrip (CatalogEntry.mk "B" "" "y").hcpcs_code = "" ∧
    normOption (RequestedProduct.mk "A" "" "x").protocol_step_option ≠
      normOption (CatalogEntry.mk "B" "" "y").protocol_step_option ∧
    entry_matches (RequestedProduct.mk "A" "" "x")
      (CatalogEntry.mk "B" "" "y") = true :=
  ⟨by rfl, by rfl, by decide, by rfl⟩

/-- C2 (amended): the matcher compares normalized fields for plain
equality with no emptiness guard: whenever both sides' HCPCS codes are
blank after trimming, the pair matches (vacuous blank-equals-blank match),
whatever the protocol-step-options are. -/
theorem C2_blank_codes_match (product : RequestedProduct) (p : CatalogEntry)
    (h1 : pyStrip product.hcpcs_code = "")
    (h2 : pyStrip p.hcpcs_code = "") :
    entry_matches product p = true := by
  simp [entry_matches, normCode, h1, h2]

/-- C2 (witness): the amended theorem applied to a whitespace-only HCPCS
code against a missing one. -/
theorem C2_witness :
    pyStrip (RequestedProduct.mk "A" " " "x").hcpcs_code = "" ∧
    pyStrip (CatalogEntry.mk "B" "" "y").hcpcs_code = "" ∧
    entry_matches (RequestedProduct.mk "A" " " "x")
      (CatalogEntry.mk "B" "" "y") = true :=
  ⟨by rfl, by rfl,
    C2_blank_codes_match (RequestedProduct.mk "A" " " "x")
      (CatalogEntry.mk "B" "" "y") (by rfl) (by rfl)⟩

/-- C3 (counterexample): a parseable proposal whose best-partner entry has
no `partner_id` key makes the verifier raise (`KeyError`, surfaced as the
handler's HTTP 500), rather than degrading `best_partner` to none. -/
theorem C3_counterexample :
    verify orderA [partnerX] ⟨some refNoId, [], [], "s"⟩ =
      .error .keyError := by rfl

/-- C3 (amended): the verifier never raises on a proposal in which the
best-partner entry (when present) and every alternative entry carry a
`partner_id`; a proposal violating that raises instead of degrading. -/
theorem C3_no_raise_when_ids_present (order : Order) (d : List Partner)
    (p : Proposal)
    (hb : (p.best_partner.all fun ref => ref.partner_id.isSome) = true)
    (ha : (p.alternatives.all fun alt => alt.partner_id.isSome) = true) :
    (verify order d p).isOk = true := by
  obtain ⟨alts1, halts⟩ :=
    verify_alts_total d (product_names_from_order order.products)
      p.alternatives (fun a haa => List.all_eq_true.mp ha a haa)
  have hbest : ∃ b1,
      verify_best d (product_names_from_order order.products)
        p.best_partner = .ok b1 := by
    cases hpb : p.best_partner with
    | none => exact ⟨none, rfl⟩
    | some ref =>
      rw [hpb] at hb
      simp only [Option.all_some] at hb
      cases hid : ref.partner_id with
      | none => rw [hid] at hb; cases hb
      | some pid =>
        refine ⟨if id_covers d (product_names_from_order order.products) pid
                then some ref else none, ?_⟩
        by_cases hc :
            id_covers d (product_names_from_order order.products) pid
              = true <;>
          simp [verify_best, hid, hc]
  obtain ⟨b1, hb1⟩ := hbest
  simp [verify, hb1, halts, Except.isOk, Except.toBool]

/-- C3 (witness): the amended theorem applied to a proposal whose entries
all carry ids. -/
theorem C3_witness :
    ((Proposal.mk (some refX) [refZ] [] "s").best_partner.all
      fun ref => ref.partner_id.isSome) = true ∧
    ((Proposal.mk (some refX) [refZ] [] "s").alternatives.all
      fun alt => alt.partner_id.isSome) = true ∧
    (verify orderA [partnerX] ⟨some refX, [refZ], [], "s"⟩).isOk = true :=
  ⟨by rfl, by rfl,
    C3_no_raise_when_ids_present orderA [partnerX]
      ⟨some refX, [refZ], [], "s"⟩ (by rfl) (by rfl)⟩

/-- C4: whenever the verifier's output contains a best partner, the
split-delivery list of that same output is empty. -/
theorem C4_best_excludes_split (order : Order) (d : List Partner)
    (p out : Proposal) (ref : PartnerRef)
    (h : verify order d p = .ok out)
    (hb : out.best_partner = some ref) :
    out.split_delivery = [] := by
  obtain ⟨best1, alts1, hbest, halts, hout⟩ := verify_ok_elim order d p out h
  subst hout
  have hb' : best1 = some ref := hb
  subst hb'
  exact verify_split_of_best _ _ _

/-- C4 (witness): a proposal with a valid split plan and a kept best
partner; the verified output clears the split. -/
theorem C4_witness :
    verify orderA [partnerX] ⟨some refX, [], [splitA], "s"⟩ =
        .ok ⟨some refX, [], [], "s"⟩ ∧
    (Proposal.mk (some refX) [] [] "s").best_partner = some refX ∧
    (Proposal.mk (some refX) [] [] "s").split_delivery = [] :=
  ⟨by rfl, by rfl,
    C4_best_excludes_split orderA [partnerX]
      ⟨some refX, [], [splitA], "s"⟩ ⟨some refX, [], [], "s"⟩ refX
      (by rfl) (by rfl)⟩

/-- C5: when the union of claimed fulfilled products across the proposed
split-delivery entries does not cover every requested product name, the
verified output's split-delivery list is empty (the plan is discarded
whole, never trimmed). -/
theorem C5_incomplete_split_cleared (order : Order) (d : List Partner)
    (p out : Proposal)
    (h : verify order d p = .ok out)
    (hcov : subsetNames (product_names_from_order order.products)
        (p.split_delivery.flatMap fun part => part.fulfilled_products)
        = false) :
    out.split_delivery = [] := by
  obtain ⟨best1, alts1, hbest, halts, hout⟩ := verify_ok_elim order d p out h
  subst hout
  exact verify_split_of_not_covered _ _ _ hcov

/-- C5 (witness): a split plan claiming only product `"B"` against an
order requesting `"A"`; the verified output clears it. -/
theorem C5_witness :
    verify orderA [partnerX] ⟨none, [], [splitB], "s"⟩ =
        .ok ⟨none, [], [], "s"⟩ ∧
    subsetNames (product_names_from_order orderA.products)
        ((Proposal.mk none [] [splitB] "s").split_delivery.flatMap
          fun part => part.fulfilled_products) = false ∧
    (Proposal.mk none [] [] "s").split_delivery = [] :=
  ⟨by rfl, by rfl,
    C5_incomplete_split_cleared orderA [partnerX]
      ⟨none, [], [splitB], "s"⟩ ⟨none, [], [], "s"⟩ (by rfl) (by rfl)⟩

/-- C6: for a proposal that names a best partner id, the verified output
keeps the claim exactly when the id resolves in the full roster and the
trimmed requested display names are a subset of that partner's trimmed
catalog display names; otherwise best_partner is none. -/
theorem C6_best_kept_iff_covers (order : Order) (d : List Partner)
    (p out : Proposal) (ref : PartnerRef) (pid : String)
    (hp : p.best_partner = some ref)
    (hid : ref.partner_id = some pid)
    (h : verify order d p = .ok out) :
    out.best_partner =
      if id_covers d (product_names_from_order order.products) pid
      then some ref else none := by
  obtain ⟨best1, alts1, hbest, halts, hout⟩ := verify_ok_elim order d p out h
  subst hout
  rw [hp] at hbest
  simp only [verify_best, hid] at hbest
  by_cases hc : id_covers d (product_names_from_order order.products) pid
      = true
  · rw [if_pos hc] at hbest
    cases hbest
    simp [hc]
  · rw [if_neg hc] at hbest
    cases hbest
    simp [hc]

/-- C6 (witness): the theorem applied to a best partner whose id is in the
roster and whose catalog covers the order by name. -/
theorem C6_witness :
    (Proposal.mk (some refX) [] [] "s").best_partner = some refX ∧
    refX.partner_id = some "X" ∧
    verify orderA [partnerX] ⟨some refX, [], [], "s"⟩ =
        .ok ⟨some refX, [], [], "s"⟩ ∧
    (Proposal.mk (some refX) [] [] "s").best_partner =
      (if id_covers [partnerX] (product_names_from_order orderA.products)
          "X"
       then some refX else none) :=
  ⟨by rfl, by rfl, by rfl,
    C6_best_kept_iff_covers orderA [partnerX] ⟨some refX, [], [], "s"⟩
      ⟨some refX, [], [], "s"⟩ refX "X" (by rfl) (by rfl) (by rfl)⟩

/-- C7: the verified alternatives list is exactly the proposed list
filtered by the keep condition (id resolves in the full roster and
requested names are covered by that partner's names); failures are
silently dropped. -/
theorem C7_alternatives_filtered (order : Order) (d : List Partner)
    (p out : Proposal)
    (h : verify order d p = .ok out) :
    out.alternatives =
      p.alternatives.filter
        (keep_ref d (product_names_from_order order.products)) := by
  obtain ⟨best1, alts1, hbest, halts, hout⟩ := verify_ok_elim order d p out h
  subst hout
  exact verify_alts_ok_filter d _ p.alternatives alts1 halts

/-- C7 (witness): a proposal with one valid and one unknown alternative;
the verified list keeps only the valid one. -/
theorem C7_witness :
    verify orderA [partnerX] ⟨none, [refX, refZ], [], "s"⟩ =
        .ok ⟨none, [refX], [], "s"⟩ ∧
    (Proposal.mk none [refX] [] "s").alternatives =
      (Proposal.mk none [refX, refZ] [] "s").alternatives.filter
        (keep_ref [partnerX] (product_names_from_order orderA.products)) :=
  ⟨by rfl,
    C7_alternatives_filtered orderA [partnerX]
      ⟨none, [refX, refZ], [], "s"⟩ ⟨none, [refX], [], "s"⟩ (by rfl)⟩

/-- C8: the verifier is idempotent — re-verifying its own successful
output against the same order and roster returns that output unchanged. -/
theorem C8_verify_idempotent (order : Order) (d : List Partner)
    (p out : Proposal) (h : verify order d p = .ok out) :
    verify order d out = .ok out := by
  obtain ⟨best1, alts1, hbest, halts, hout⟩ := verify_ok_elim order d p out h
  subst hout
  have hb2 := verify_best_idem d _ p.best_partner best1 hbest
  have hfilter := verify_alts_ok_filter d _ p.alternatives alts1 halts
  have ha2 : verify_alts d (product_names_from_order order.products) alts1
      = .ok alts1 := by
    apply verify_alts_all_kept
    intro a ha
    rw [hfilter] at ha
    exact List.of_mem_filter ha
  simp only [verify, hb2, ha2, verify_split_idem]

/-- C8 (witness): the theorem applied to a verified output obtained from
a proposal that needed all three corrections. -/
theorem C8_witness :
    verify orderA [partnerX] ⟨some refX, [refZ], [splitA], "s"⟩ =
        .ok ⟨some refX, [], [], "s"⟩ ∧
    verify orderA [partnerX] ⟨some refX, [], [], "s"⟩ =
        .ok ⟨some refX, [], [], "s"⟩ :=
  ⟨by rfl,
    C8_verify_idempotent orderA [partnerX]
      ⟨some refX, [refZ], [splitA], "s"⟩ ⟨some refX, [], [], "s"⟩
      (by rfl)⟩

/-- C9: when the eligibility filter leaves no candidate, the handler
returns the terminal no-eligible-partners outcome, for every oracle — in
particular the result does not depend on the oracle, which is therefore
never consulted. -/
theorem C9_no_eligible_terminal (oracle : Order → List Partner → Proposal)
    (dme_partners : List Partner) (order : Order)
    (h : eligible_partners dme_partners order.address_state = []) :
    select_dme_partner oracle dme_partners order = .noEligible := by
  simp [select_dme_partner, h]

/-- C9 (witness): a roster whose only partner operates in another state. -/
theorem C9_witness :
    eligible_partners [partnerNY] orderA.address_state = [] ∧
    select_dme_partner (fun _ _ => Proposal.mk (some refX) [] [] "s")
        [partnerNY] orderA = .noEligible :=
  ⟨by rfl,
    C9_no_eligible_terminal (fun _ _ => Proposal.mk (some refX) [] [] "s")
      [partnerNY] orderA (by rfl)⟩

/-- C10: verification looks partners up in the full roster, not in the
eligible candidate set: a concrete roster/order/proposal where the
verified best partner operates in a different state than the order and is
not payor-contracted (so it is excluded by the eligibility filter), yet is
kept because its catalog covers the requested names. -/
theorem C10_verifier_ignores_eligibility :
    verify orderA [partnerQ, partnerP] ⟨some refP, [], [], "s"⟩ =
        .ok ⟨some refP, [], [], "s"⟩ ∧
    refP.partner_id = some "P1" ∧
    find_partner [partnerQ, partnerP] "P1" = some partnerP ∧
    partnerP.state ≠ orderA.address_state ∧
    partnerP.contracted_payor_status = false ∧
    subsetNames (product_names_from_order orderA.products)
        (product_names_from_partner partnerP) = true ∧
    eligible_partners [partnerQ, partnerP] orderA.address_state =
      [partnerQ] :=
  ⟨by rfl, by rfl, by rfl, by decide, by rfl, by rfl, by rfl⟩

end DME
